import Mathlib

/-!
Shallow embedding of the filename/metadata classifier of
`src/aimm_adapters/aimm_ingest.py` (the only component the specification
covers), together with theorems settling the specification's claims.

Modelling conventions:
* Python strings are Lean `String`s; `"tok" in name` is `strContains name "tok"`
  (contiguous, case-sensitive substring containment).
* Python exceptions become the explicit result type `PyResult`; a `KeyError`,
  `TypeError` or `IndexError` raised by the code is `PyResult.raise` with the
  corresponding `PyError` constructor and the message the code builds.
* The voltages 0.0, 3.0, 4.3, 4.8 are inert tags (the code never computes with
  them), modelled as rationals.
* The Python dict `dict(zip(["cycle","voltage","state"], charge))` is modelled
  literally as the association list produced by zipping the key list with the
  value tuple.
-/

/-- Python heterogeneous dict values occurring in the charge records. -/
inductive PyVal where
  | vInt (n : Int)
  | vRat (q : ℚ)
  | vStr (s : String)
deriving DecidableEq

/-- The exception kinds the classifier code can raise. -/
inductive PyError where
  | keyError (msg : String)
  | typeError (msg : String)
  | indexError (msg : String)
deriving DecidableEq

/-- Result of running a Python function that may raise. -/
inductive PyResult (α : Type) where
  | ok (a : α)
  | raise (e : PyError)
deriving DecidableEq

/-- Contiguous substring test on character lists (Python's `in` on `str`). -/
def containsSub : List Char → List Char → Bool
  | [], p => p.isEmpty
  | h :: t, p => p.isPrefixOf (h :: t) || containsSub t p

/-- `strContains s p` models Python's `p in s` for strings. -/
def strContains (s p : String) : Bool :=
  containsSub s.data p.data

/-- Attempt of the regex `(\d*)V` at the current position: greedily take the
digit run and require a literal `V` right after it (backtracking inside the
run can never succeed since a digit is not `V`). -/
def matchDigitsV (s : List Char) : Option (List Char) :=
  let ds := s.takeWhile Char.isDigit
  match s.drop ds.length with
  | 'V' :: _ => some (ds ++ ['V'])
  | _ => none

/-- `re.search("(\d*)V", name)`: leftmost match of the pattern, if any. -/
def reSearchDigitsV : List Char → Option (List Char)
  | [] => none
  | c :: cs =>
    match matchDigitsV (c :: cs) with
    | some m => some m
    | none => reSearchDigitsV cs

/-- The key list `["cycle", "voltage", "state"]` of `parse_filename`. -/
def chargeKeys : List String := ["cycle", "voltage", "state"]

/-- Python's `zip`, truncating to the shorter list. -/
def pyZip : List String → List PyVal → List (String × PyVal)
  | k :: ks, v :: vs => (k, v) :: pyZip ks vs
  | _, _ => []

/-- A cycle/voltage/state tuple, before conversion to a dict. -/
abbrev ChargeTuple := Int × ℚ × String

/-- `dict(zip(["cycle","voltage","state"], charge))`. -/
def chargeToDict (c : ChargeTuple) : List (String × PyVal) :=
  pyZip chargeKeys [.vInt c.1, .vRat c.2.1, .vStr c.2.2]

/-- Sample-resolution stage of `parse_filename` (aimm_ingest.py lines 35-46). -/
def sampleOf (name : String) : PyResult String :=
  if strContains name "622" then .ok "BM_NCM622"
  else if strContains name "NCMA" then .ok "BM_NCMA"
  else if strContains name "712_Al_free" then .ok "BM_NCM712"
  else if strContains name "712" then .ok "BM_NCM712-Al"
  else if strContains name "811" then .ok "BM_NCM811"
  else .raise (.keyError ("unable to parse sample from " ++ name))

/-- Cycle-resolution stage of `parse_filename` (lines 53-60); the identical
code is inlined per column in `ingest_aimm_ncm_gihyeok` (lines 643-650) and
`ingest_aimm_ncm_gihyeok_oxygen` (lines 933-940). -/
def cycleOf (name : String) : PyResult Int :=
  if strContains name "1st" then .ok 1
  else if strContains name "2nd" then .ok 2
  else if strContains name "10th" then .ok 10
  else .raise (.keyError ("unable to parse cycle from " ++ name))

/-- Voltage/state stage of `parse_filename` (lines 62-73):
`voltage_str = re.search("(\d*)V", name)[0]` raises `TypeError` when the
search returns `None` (subscripting `None`), otherwise the matched string is
compared against the three recognized markers. -/
def voltageOf (name : String) : PyResult (ℚ × String) :=
  match reSearchDigitsV name.data with
  | none => .raise (.typeError "NoneType object is not subscriptable")
  | some m =>
    let voltage_str : String := ⟨m⟩
    if voltage_str = "43V" then .ok (mkRat 43 10, "C")
    else if voltage_str = "48V" then .ok (mkRat 48 10, "C")
    else if voltage_str = "3V" then .ok (3, "DC")
    else .raise (.keyError ("unable to parse voltage from " ++ voltage_str))

/-- `parse_filename` (lines 17-80): sample resolution, then charge resolution
(`None` for `Ni_metal`, pristine short-circuit, else cycle then voltage),
then `dict(zip(...))` on a truthy (non-`None`) charge tuple. -/
def parse_filename (name : String) :
    PyResult (String × Option (List (String × PyVal))) :=
  match sampleOf name with
  | .raise e => .raise e
  | .ok sample =>
    let chargeR : PyResult (Option ChargeTuple) :=
      if sample = "Ni_metal" then .ok none
      else if strContains name "Pristine" then .ok (some (0, 0, "DC"))
      else
        match cycleOf name with
        | .raise e => .raise e
        | .ok cycle =>
          match voltageOf name with
          | .raise e => .raise e
          | .ok (voltage, state) => .ok (some (cycle, voltage, state))
    match chargeR with
    | .raise e => .raise e
    | .ok (some c) => .ok (sample, some (chargeToDict c))
    | .ok none => .ok (sample, none)

/-- Sample-resolution stage of `parse_filename_gihyeok` (lines 101-112); note
the specific token here is `"712_Al-doped"` and its tag is `BM_NCM712-Al`. -/
def sampleOf_gihyeok (name : String) : PyResult String :=
  if strContains name "622" then .ok "BM_NCM622"
  else if strContains name "NCMA" then .ok "BM_NCMA"
  else if strContains name "712_Al-doped" then .ok "BM_NCM712-Al"
  else if strContains name "712" then .ok "BM_NCM712"
  else if strContains name "811" then .ok "BM_NCM811"
  else .raise (.keyError ("unable to parse sample from " ++ name))

/-- Element-symbol stage of `parse_filename_gihyeok` (lines 114-123). -/
def symbolOf_gihyeok (name : String) : PyResult String :=
  if strContains name "Co" then .ok "Co"
  else if strContains name "Mn" then .ok "Mn"
  else if strContains name "Ni" then .ok "Ni"
  else if strContains name "O" then .ok "O"
  else .raise (.keyError ("unable to parse symbol from " ++ name))

/-- `parse_filename_gihyeok` (lines 83-125). -/
def parse_filename_gihyeok (name : String) : PyResult (String × String) :=
  match sampleOf_gihyeok name with
  | .raise e => .raise e
  | .ok sample =>
    match symbolOf_gihyeok name with
    | .raise e => .raise e
    | .ok symbol => .ok (sample, symbol)

/-- Sample-resolution stage of `parse_filename_nslsii` (lines 146-155), which
also accepts the misspellings `"NMCA"` and `"721"`. -/
def sampleOf_nslsii (name : String) : PyResult String :=
  if strContains name "622" then .ok "BM_NCM622"
  else if strContains name "NCMA" || strContains name "NMCA" then .ok "BM_NCMA"
  else if strContains name "712" || strContains name "721" then .ok "BM_NCM712-Al"
  else if strContains name "811" then .ok "BM_NCM811"
  else .raise (.keyError ("unable to parse sample from " ++ name))

/-- Cycle resolution of `parse_filename_nslsii` (lines 160-169): the raise is
commented out and the cycle defaults to 1 when no ordinal marker is present. -/
def cycleOf_nslsii (name : String) : Int :=
  if strContains name "1st" then 1
  else if strContains name "2nd" then 2
  else if strContains name "10th" then 10
  else 1

/-- Voltage/state resolution of `parse_filename_nslsii` (lines 171-181). -/
def voltageOf_nslsii (name : String) : PyResult (ℚ × String) :=
  if strContains name "4_3" || strContains name "43C" then .ok (mkRat 43 10, "C")
  else if strContains name "4_8" || strContains name "48C" then .ok (mkRat 48 10, "C")
  else if strContains name "3V" || strContains name "3_0" || strContains name "30DC" then
    .ok (3, "DC")
  else .raise (.keyError ("unable to parse voltage from " ++ name))

/-- `parse_filename_nslsii` (lines 128-188). -/
def parse_filename_nslsii (name : String) :
    PyResult (String × Option (List (String × PyVal))) :=
  match sampleOf_nslsii name with
  | .raise e => .raise e
  | .ok sample =>
    let chargeR : PyResult ChargeTuple :=
      if strContains name "pristine" || strContains name "Pristine" then
        .ok (0, 0, "DC")
      else
        let cycle := cycleOf_nslsii name
        match voltageOf_nslsii name with
        | .raise e => .raise e
        | .ok (voltage, state) => .ok (cycle, voltage, state)
    match chargeR with
    | .raise e => .raise e
    | .ok c => .ok (sample, some (chargeToDict c))

/-- Characters Python's no-argument `str.split()` treats as whitespace
(ASCII subset, which covers every string the code handles). -/
def isSpaceC (c : Char) : Bool :=
  c = ' ' || c = '\t' || c = '\n' || c = '\r' || c = '\x0b' || c = '\x0c'

/-- Scanner for `splitWs`; `acc` holds the current token's characters in
reverse. -/
def splitWsAux : List Char → List Char → List String
  | [], acc => if acc.isEmpty then [] else [⟨acc.reverse⟩]
  | c :: cs, acc =>
    if isSpaceC c then
      if acc.isEmpty then splitWsAux cs []
      else String.mk acc.reverse :: splitWsAux cs []
    else splitWsAux cs (c :: acc)

/-- Python's `name.split()`: split on runs of whitespace, dropping empties. -/
def splitWs (l : List Char) : List String :=
  splitWsAux l []

/-- Builds one charge dict literal of `experiment_to_params_map`. -/
def mkCharge (c : Int) (v : ℚ) (st : String) : List (String × PyVal) :=
  [("cycle", .vInt c), ("voltage", .vRat v), ("state", .vStr st)]

/-- The static `experiment_to_params_map` of `get_experiment_params`
(lines 211-340), in source order. -/
def experiment_to_params_map : List (String × String × List (String × PyVal)) :=
  [ ("1-1", "BM_NCMA", mkCharge 1 3 "DC"),
    ("1-2", "BM_NCMA", mkCharge 10 (mkRat 48 10) "C"),
    ("1-3", "BM_NCM712-Al", mkCharge 1 3 "DC"),
    ("1-4", "BM_NCM712-Al", mkCharge 10 3 "DC"),
    ("2-1", "BM_NCMA", mkCharge 2 (mkRat 48 10) "C"),
    ("2-2", "BM_NCM712-Al", mkCharge 1 (mkRat 48 10) "C"),
    ("2-3", "BM_NCM712-Al", mkCharge 10 (mkRat 48 10) "C"),
    ("2-4", "BM_NCM811", mkCharge 1 3 "DC"),
    ("3-1", "BM_NCM712-Al", mkCharge 0 0 "DC"),
    ("3-2", "BM_NCM712-Al", mkCharge 2 (mkRat 48 10) "C"),
    ("3-3", "BM_NCM622", mkCharge 2 (mkRat 48 10) "C"),
    ("3-4", "BM_NCM811", mkCharge 2 (mkRat 48 10) "C"),
    ("4-1", "BM_NCM811", mkCharge 2 (mkRat 43 10) "C"),
    ("4-2", "BM_NCM622", mkCharge 1 (mkRat 48 10) "C"),
    ("4-3", "BM_NCM811", mkCharge 10 3 "DC"),
    ("4-4", "BM_NCMA", mkCharge 1 (mkRat 48 10) "C"),
    ("5-1", "BM_NCM712-Al", mkCharge 1 (mkRat 43 10) "C"),
    ("5-2", "BM_NCM622", mkCharge 2 (mkRat 43 10) "C"),
    ("5-3", "BM_NCM811", mkCharge 1 (mkRat 48 10) "C"),
    ("5-4", "BM_NCM622", mkCharge 10 3 "DC"),
    ("6-1", "BM_NCM622", mkCharge 1 3 "DC"),
    ("6-2", "BM_NCM712-Al", mkCharge 2 (mkRat 48 10) "C"),
    ("6-3", "BM_NCM811", mkCharge 10 (mkRat 48 10) "C"),
    ("6-4", "BM_NCMA", mkCharge 0 0 "DC"),
    ("7-1", "BM_NCMA", mkCharge 2 (mkRat 43 10) "C"),
    ("7-2", "BM_NCM622", mkCharge 1 (mkRat 43 10) "C"),
    ("7-3", "BM_NCM811", mkCharge 0 0 "DC"),
    ("7-4", "BM_NCMA", mkCharge 1 (mkRat 43 10) "C"),
    ("8-1", "BM_NCM622", mkCharge 0 0 "DC"),
    ("8-2", "BM_NCM811", mkCharge 1 (mkRat 43 10) "C"),
    ("8-3", "BM_NCMA", mkCharge 10 (mkRat 48 10) "C"),
    ("8-4", "BM_NCM622", mkCharge 10 (mkRat 48 10) "C") ]

/-- `get_experiment_params` (lines 191-346): `name.split()[0]` indexed into
the static map; a missing key raises `KeyError(experiment_number)`, and an
empty split raises `IndexError` at the `[0]`. -/
def get_experiment_params (name : String) :
    PyResult (String × List (String × PyVal)) :=
  match splitWs name.data with
  | [] => .raise (.indexError "list index out of range")
  | experiment_number :: _ =>
    match experiment_to_params_map.lookup experiment_number with
    | some p => .ok p
    | none => .raise (.keyError experiment_number)

/-- Per-column charge resolution inlined in `ingest_aimm_ncm_gihyeok`
(lines 640-664): pristine, then cycle, then the voltage markers `"3.0"` and
`"4.8"` only. -/
def columnCharge_gihyeok (column : String) : PyResult (List (String × PyVal)) :=
  if strContains column "Pristine" then .ok (chargeToDict (0, 0, "DC"))
  else
    match cycleOf column with
    | .raise e => .raise e
    | .ok cycle =>
      if strContains column "3.0" then .ok (chargeToDict (cycle, 3, "DC"))
      else if strContains column "4.8" then .ok (chargeToDict (cycle, mkRat 48 10, "C"))
      else .raise (.keyError ("unable to parse voltage from " ++ column))

/-- Per-column charge resolution inlined in `ingest_aimm_ncm_gihyeok_oxygen`
(lines 930-957): pristine, then cycle, then the voltage markers `"3.0"`,
`"4.3"` and `"4.8"`. -/
def columnCharge_gihyeok_oxygen (column : String) :
    PyResult (List (String × PyVal)) :=
  if strContains column "Pristine" then .ok (chargeToDict (0, 0, "DC"))
  else
    match cycleOf column with
    | .raise e => .raise e
    | .ok cycle =>
      if strContains column "3.0" then .ok (chargeToDict (cycle, 3, "DC"))
      else if strContains column "4.3" then .ok (chargeToDict (cycle, mkRat 43 10, "C"))
      else if strContains column "4.8" then .ok (chargeToDict (cycle, mkRat 48 10, "C"))
      else .raise (.keyError ("unable to parse voltage from " ++ column))

/-- The `file_to_sample_map` of `get_sample_charge` (lines 688-738), in
source (insertion) order. -/
def file_to_sample_map : List (String × List String) :=
  [ ("BM_NCM622",
      ["Sigscan71987", "Sigscan71991", "Sigscan71996", "Sigscan72001",
       "Sigscan72005", "Sigscan72009", "Sigscan71970", "Sigscan71974"]),
    ("BM_NCMA",
      ["Sigscan71986", "Sigscan71990", "Sigscan71995", "Sigscan71999",
       "Sigscan72004", "Sigscan72008", "Sigscan71969", "Sigscan71973"]),
    ("BM_NCM811", []),
    ("BM_NCM712-Al",
      ["Sigscan71983", "Sigscan71988", "Sigscan71993", "Sigscan71997",
       "Sigscan72002", "Sigscan72006", "Sigscan72010", "Sigscan71971"]),
    ("BM_NCM712",
      ["Sigscan71294", "Sigscan71295", "Sigscan71296", "Sigscan71297",
       "Sigscan71312", "Sigscan71313", "Sigscan71314", "Sigscan71315",
       "Sigscan71985", "Sigscan71989", "Sigscan71994", "Sigscan71998",
       "Sigscan72003", "Sigscan72007", "Sigscan71968", "Sigscan71972"]) ]

/-- The `file_to_charge_map` of `get_sample_charge` (lines 740-797), in
source (insertion) order. -/
def file_to_charge_map : List (String × List String) :=
  [ ("Pristine",
      ["Sigscan71294", "Sigscan72001", "Sigscan72002", "Sigscan72003",
       "Sigscan72004"]),
    ("1st_43V",
      ["Sigscan71295", "Sigscan72005", "Sigscan72006", "Sigscan72007",
       "Sigscan72008"]),
    ("1st_48V",
      ["Sigscan71296", "Sigscan72009", "Sigscan72010", "Sigscan71968",
       "Sigscan71969"]),
    ("1st_3V",
      ["Sigscan71297", "Sigscan71970", "Sigscan71971", "Sigscan71972",
       "Sigscan71973"]),
    ("2nd_43V",
      ["Sigscan71312", "Sigscan71983", "Sigscan71985", "Sigscan71986",
       "Sigscan71974"]),
    ("2nd_48V",
      ["Sigscan71313", "Sigscan71987", "Sigscan71988", "Sigscan71989",
       "Sigscan71990"]),
    ("10th_48V",
      ["Sigscan71314", "Sigscan71991", "Sigscan71993", "Sigscan71994",
       "Sigscan71995"]),
    ("10th_3V",
      ["Sigscan71315", "Sigscan71996", "Sigscan71997", "Sigscan71998",
       "Sigscan71999"]) ]

/-- Python's `name.split("-")[0]`: the characters before the first dash. -/
def splitDashHead (s : String) : String :=
  ⟨s.data.takeWhile (fun c => c ≠ '-')⟩

/-- Python's `str.capitalize()`: first character uppercased, rest lowercased
(ASCII behaviour, which covers every string in the tables). -/
def pyCapitalize (s : String) : String :=
  match s.data with
  | [] => ""
  | c :: cs => ⟨c.toUpper :: cs.map Char.toLower⟩

/-- `get_sample_charge` (lines 672-815): looks up the capitalized first
dash-separated token in both static maps (first hit of the iteration wins);
when both hits exist it returns their concatenation frame, and otherwise it
falls off the end of the function, i.e. returns Python's `None`. -/
def get_sample_charge (name : String) : Option String :=
  let fname := pyCapitalize (splitDashHead name)
  let str_sample := (file_to_sample_map.find? (fun p => p.2.contains fname)).map Prod.fst
  let str_charge := (file_to_charge_map.find? (fun p => p.2.contains fname)).map Prod.fst
  match str_sample, str_charge with
  | some s, some c => some (s ++ "_" ++ c)
  | _, _ => none

/-- The sample-resolution stage of `parse_filename` only ever produces one of
the five enumerated sample tags. -/
theorem sampleOf_mem (name s : String) (h : sampleOf name = .ok s) :
    s = "BM_NCM622" ∨ s = "BM_NCMA" ∨ s = "BM_NCM712" ∨
    s = "BM_NCM712-Al" ∨ s = "BM_NCM811" := by
  unfold sampleOf at h
  split_ifs at h <;> simp_all

/-- In particular the sample is never `"Ni_metal"`. -/
theorem sampleOf_ne_Ni_metal (name s : String) (h : sampleOf name = .ok s) :
    s ≠ "Ni_metal" := by
  rcases sampleOf_mem name s h with h' | h' | h' | h' | h' <;> subst h' <;> decide

/-- C1: an input reaching voltage resolution with no recognized voltage
marker was claimed always to raise the classification `KeyError`; in the code,
an input with a `V` but an unknown marker does raise the `KeyError`, but an
input with no `V` at all makes `re.search` return `None` and the subscript
`[0]` raises a `TypeError` instead. -/
theorem parse_filename_missing_voltage_marker :
    parse_filename "622_1st_scan.txt" =
      .raise (.typeError "NoneType object is not subscriptable") ∧
    parse_filename "622_1st_8V.txt" =
      .raise (.keyError "unable to parse voltage from 8V") := by decide

/-- C3: `get_sample_charge` silently returns Python's `None` (modelled as
`none`) when the capitalized first dash-separated token is missing from its
sample table or its charge table, instead of raising a named error; on
matched tokens it returns the combined string. -/
theorem get_sample_charge_silent_none :
    get_sample_charge "foo-bar" = none ∧
    get_sample_charge "Sigscan99999-Co" = none ∧
    get_sample_charge "sigscan71294-1" = some "BM_NCM712_Pristine" := by decide

/-- C2 counterexample: the static `experiment_to_params_map` has exactly 32
entries, not the 40 the claim states. -/
theorem experiment_table_not_forty :
    experiment_to_params_map.length = 32 ∧
    experiment_to_params_map.length ≠ 40 := by decide

/-- C2 (amended): `get_experiment_params` splits on whitespace, keys the
first token into the static 32-entry table, is total over the defined keys,
maps `"1-1"` to `(BM_NCMA, {cycle 1, voltage 3.0, state DC})`, and raises a
`KeyError` naming the missing key for any first token outside the table. -/
theorem get_experiment_params_table :
    experiment_to_params_map.length = 32 ∧
    (∀ p ∈ experiment_to_params_map, get_experiment_params p.1 = .ok p.2) ∧
    get_experiment_params "1-1" = .ok ("BM_NCMA", mkCharge 1 3 "DC") ∧
    get_experiment_params "1-1 Co foil" = .ok ("BM_NCMA", mkCharge 1 3 "DC") ∧
    (∀ name tok rest, splitWs name.data = tok :: rest →
      experiment_to_params_map.lookup tok = none →
      get_experiment_params name = .raise (.keyError tok)) ∧
    get_experiment_params "9-9" = .raise (.keyError "9-9") := by
  refine ⟨by decide, by decide, by decide, by decide, ?_, by decide⟩
  intro name tok rest hsplit hlook
  unfold get_experiment_params
  rw [hsplit]
  simp [hlook]

/-- C2 witness: the unknown-key clause of `get_experiment_params_table`
applied to the concrete input `"9-8 foo"`. -/
theorem get_experiment_params_table_witness :
    get_experiment_params "9-8 foo" = .raise (.keyError "9-8") :=
  get_experiment_params_table.2.2.2.2.1 "9-8 foo" "9-8" ["foo"]
    (by decide) (by decide)

/-- C8: whenever sample resolution succeeds and the input contains the
pristine marker, the charge resolves to `{cycle 0, voltage 0.0, state DC}`
regardless of any other cycle or voltage tokens present, in `parse_filename`
(marker `"Pristine"`) and in `parse_filename_nslsii` (markers `"pristine"`
or `"Pristine"`). -/
theorem pristine_always_zero_charge :
    (∀ name s, sampleOf name = .ok s → strContains name "Pristine" = true →
      parse_filename name = .ok (s, some (chargeToDict (0, 0, "DC")))) ∧
    (∀ name s, sampleOf_nslsii name = .ok s →
      (strContains name "pristine" || strContains name "Pristine") = true →
      parse_filename_nslsii name = .ok (s, some (chargeToDict (0, 0, "DC")))) := by
  constructor
  · intro name s hs hp
    have hne := sampleOf_ne_Ni_metal name s hs
    unfold parse_filename
    rw [hs]
    simp [hne, hp]
  · intro name s hs hp
    unfold parse_filename_nslsii
    rw [hs]
    simp [hp]

/-- C8 witness: `pristine_always_zero_charge` at the spec's end-to-end
scenario `"NCMA_Pristine_scan.txt"`. -/
theorem pristine_always_zero_charge_witness :
    parse_filename "NCMA_Pristine_scan.txt" =
      .ok ("BM_NCMA", some (chargeToDict (0, 0, "DC"))) :=
  pristine_always_zero_charge.1 "NCMA_Pristine_scan.txt" "BM_NCMA"
    (by decide) (by decide)

/-- C9: the sample-resolution stage never yields `"Ni_metal"` (the guarded
`charge = None` branch is unreachable), so every normal return of
`parse_filename` carries a charge dict with exactly the keys
`cycle`, `voltage`, `state`. -/
theorem parse_filename_charge_keys :
    (∀ name s, sampleOf name = .ok s → s ≠ "Ni_metal") ∧
    (∀ name s c, parse_filename name = .ok (s, c) →
      ∃ d, c = some d ∧ d.map Prod.fst = chargeKeys) := by
  refine ⟨sampleOf_ne_Ni_metal, ?_⟩
  intro name s c h
  unfold parse_filename at h
  cases hs : sampleOf name with
  | raise e => rw [hs] at h; simp at h
  | ok sample =>
    rw [hs] at h
    have hne := sampleOf_ne_Ni_metal name sample hs
    simp only [if_neg hne] at h
    cases hp : strContains name "Pristine" with
    | true =>
      simp [hp] at h
      exact ⟨chargeToDict (0, 0, "DC"), h.2.symm, rfl⟩
    | false =>
      simp only [hp, Bool.false_eq_true, if_false] at h
      cases hcy : cycleOf name with
      | raise e => rw [hcy] at h; simp at h
      | ok cy =>
        rw [hcy] at h
        cases hv : voltageOf name with
        | raise e => rw [hv] at h; simp at h
        | ok vs =>
          obtain ⟨v, st⟩ := vs
          rw [hv] at h
          simp at h
          exact ⟨chargeToDict (cy, v, st), h.2.symm, rfl⟩

/-- C9 witness: `parse_filename_charge_keys` at the concrete input
`"NCMA_Pristine_scan.txt"`. -/
theorem parse_filename_charge_keys_witness :
    ∃ d, (some (chargeToDict (0, 0, "DC")) : Option (List (String × PyVal)))
        = some d ∧ d.map Prod.fst = chargeKeys :=
  parse_filename_charge_keys.2 "NCMA_Pristine_scan.txt" "BM_NCMA"
    (some (chargeToDict (0, 0, "DC"))) (by decide)

/-- Shared helper: a run of `parse_filename` through the non-pristine charge
branch with the given stage results. -/
theorem parse_filename_eq (name s : String) (hs : sampleOf name = .ok s)
    (hp : strContains name "Pristine" = false) (cy : Int)
    (hcy : cycleOf name = .ok cy) (v : ℚ) (st : String)
    (hv : voltageOf name = .ok (v, st)) :
    parse_filename name = .ok (s, some (chargeToDict (cy, v, st))) := by
  have hne := sampleOf_ne_Ni_metal name s hs
  unfold parse_filename
  rw [hs]
  simp [hne, hp, hcy, hv]

/-- C4 counterexample: `"NCMA_1st_3V43V"` contains the marker `"43V"`, yet
`parse_filename` resolves voltage 3.0 / state `"DC"`, because the regex takes
the leftmost `\d*V` match, which is `"3V"`. -/
theorem voltage_marker_43V_counterexample :
    strContains "NCMA_1st_3V43V" "43V" = true ∧
    parse_filename "NCMA_1st_3V43V" =
      .ok ("BM_NCMA", some (chargeToDict (1, 3, "DC"))) ∧
    parse_filename "NCMA_1st_3V43V" ≠
      .ok ("BM_NCMA", some (chargeToDict (1, mkRat 43 10, "C"))) := by decide

/-- C4 (amended): for every input that reaches voltage resolution, if the
leftmost `\d*V` match of the input is `"43V"` the result is voltage 4.3 /
state `"C"`, and if it is `"3V"` the result is voltage 3.0 / state `"DC"`;
in particular `parse_filename "BM_622_1st_43V_scan.txt"` returns
`("BM_NCM622", {cycle 1, voltage 4.3, state "C"})`. -/
theorem parse_filename_voltage_markers (name s : String) (cy : Int)
    (hs : sampleOf name = .ok s) (hp : strContains name "Pristine" = false)
    (hcy : cycleOf name = .ok cy) :
    (reSearchDigitsV name.data = some ['4', '3', 'V'] →
      parse_filename name = .ok (s, some (chargeToDict (cy, mkRat 43 10, "C")))) ∧
    (reSearchDigitsV name.data = some ['3', 'V'] →
      parse_filename name = .ok (s, some (chargeToDict (cy, 3, "DC")))) ∧
    parse_filename "BM_622_1st_43V_scan.txt" =
      .ok ("BM_NCM622", some (chargeToDict (1, mkRat 43 10, "C"))) := by
  refine ⟨fun h => ?_, fun h => ?_, by decide⟩
  · refine parse_filename_eq name s hs hp cy hcy _ _ ?_
    unfold voltageOf
    rw [h]
    decide
  · refine parse_filename_eq name s hs hp cy hcy _ _ ?_
    unfold voltageOf
    rw [h]
    decide

/-- C4 witness: `parse_filename_voltage_markers` at the spec's end-to-end
input `"BM_622_1st_43V_scan.txt"`. -/
theorem parse_filename_voltage_markers_witness :
    parse_filename "BM_622_1st_43V_scan.txt" =
      .ok ("BM_NCM622", some (chargeToDict (1, mkRat 43 10, "C"))) :=
  (parse_filename_voltage_markers "BM_622_1st_43V_scan.txt" "BM_NCM622" 1
    (by decide) (by decide) (by decide)).1 (by decide)

/-- C5 counterexample: the per-column charge resolution of
`ingest_aimm_ncm_gihyeok` does not recognize the `"4.3"` marker: column
`"Ni_2nd_4.3"` raises the `KeyError` instead of yielding voltage 4.3. -/
theorem columnCharge_gihyeok_no_43_marker :
    columnCharge_gihyeok "Ni_2nd_4.3" =
      .raise (.keyError "unable to parse voltage from Ni_2nd_4.3") ∧
    columnCharge_gihyeok "Ni_2nd_4.3" ≠
      .ok (chargeToDict (2, mkRat 43 10, "C")) := by decide

/-- C5 (amended): both per-column variants recognize `"3.0"` (voltage 3.0 /
`"DC"`) and `"4.8"` (voltage 4.8 / `"C"`), but only the oxygen variant also
recognizes `"4.3"` (voltage 4.3 / `"C"`); the non-oxygen variant raises its
`KeyError` on a column with neither `"3.0"` nor `"4.8"`; in particular column
header `"Ni_2nd_4.8"` yields `{cycle 2, voltage 4.8, state "C"}` in both. -/
theorem column_voltage_markers (col : String) (cy : Int)
    (hp : strContains col "Pristine" = false) (hcy : cycleOf col = .ok cy) :
    (strContains col "3.0" = true →
      columnCharge_gihyeok col = .ok (chargeToDict (cy, 3, "DC")) ∧
      columnCharge_gihyeok_oxygen col = .ok (chargeToDict (cy, 3, "DC"))) ∧
    (strContains col "3.0" = false → strContains col "4.3" = true →
      columnCharge_gihyeok_oxygen col =
        .ok (chargeToDict (cy, mkRat 43 10, "C"))) ∧
    (strContains col "3.0" = false → strContains col "4.8" = true →
      columnCharge_gihyeok col = .ok (chargeToDict (cy, mkRat 48 10, "C"))) ∧
    (strContains col "3.0" = false → strContains col "4.3" = false →
      strContains col "4.8" = true →
      columnCharge_gihyeok_oxygen col =
        .ok (chargeToDict (cy, mkRat 48 10, "C"))) ∧
    (strContains col "3.0" = false → strContains col "4.8" = false →
      columnCharge_gihyeok col =
        .raise (.keyError ("unable to parse voltage from " ++ col))) ∧
    columnCharge_gihyeok "Ni_2nd_4.8" =
      .ok (chargeToDict (2, mkRat 48 10, "C")) ∧
    columnCharge_gihyeok_oxygen "Ni_2nd_4.8" =
      .ok (chargeToDict (2, mkRat 48 10, "C")) := by
  refine ⟨fun h1 => ⟨?_, ?_⟩, fun h1 h2 => ?_, fun h1 h2 => ?_,
    fun h1 h2 h3 => ?_, fun h1 h2 => ?_, by decide, by decide⟩
  · unfold columnCharge_gihyeok; simp [hp, hcy, h1]
  · unfold columnCharge_gihyeok_oxygen; simp [hp, hcy, h1]
  · unfold columnCharge_gihyeok_oxygen; simp [hp, hcy, h1, h2]
  · unfold columnCharge_gihyeok; simp [hp, hcy, h1, h2]
  · unfold columnCharge_gihyeok_oxygen; simp [hp, hcy, h1, h2, h3]
  · unfold columnCharge_gihyeok; simp [hp, hcy, h1, h2]

/-- C5 witness: `column_voltage_markers` at the concrete column header
`"Ni_2nd_4.3"` for the oxygen variant. -/
theorem column_voltage_markers_witness :
    columnCharge_gihyeok_oxygen "Ni_2nd_4.3" =
      .ok (chargeToDict (2, mkRat 43 10, "C")) :=
  (column_voltage_markers "Ni_2nd_4.3" 2 (by decide) (by decide)).2.1
    (by decide) (by decide)

/-- C6 counterexample: `"622_712_Al_free"` contains both `"712_Al_free"`
and `"712"`, yet resolves to `"BM_NCM622"` (the `"622"` test runs first),
not to the specific token's tag `"BM_NCM712"`. -/
theorem tie_break_counterexample :
    strContains "622_712_Al_free" "712_Al_free" = true ∧
    strContains "622_712_Al_free" "712" = true ∧
    sampleOf "622_712_Al_free" = .ok "BM_NCM622" ∧
    sampleOf "622_712_Al_free" ≠ .ok "BM_NCM712" := by decide

/-- C6 (amended): in `parse_filename`, an input containing the specific
token `"712_Al_free"` and none of the earlier-priority tokens `"622"` and
`"NCMA"` resolves to that token's tag `"BM_NCM712"` and never to the general
token's tag `"BM_NCM712-Al"`; likewise in `parse_filename_gihyeok` for its
specific token `"712_Al-doped"` (tag `"BM_NCM712-Al"`) over the general
`"712"` (tag `"BM_NCM712"`): the tests run in fixed order, first match
wins. -/
theorem tie_break_specific_token :
    (∀ name, strContains name "712_Al_free" = true →
      strContains name "622" = false → strContains name "NCMA" = false →
      sampleOf name = .ok "BM_NCM712" ∧
      sampleOf name ≠ .ok "BM_NCM712-Al") ∧
    (∀ name, strContains name "712_Al-doped" = true →
      strContains name "622" = false → strContains name "NCMA" = false →
      sampleOf_gihyeok name = .ok "BM_NCM712-Al" ∧
      sampleOf_gihyeok name ≠ .ok "BM_NCM712") := by
  constructor
  · intro name h h622 hncma
    unfold sampleOf
    simp [h, h622, hncma]
  · intro name h h622 hncma
    unfold sampleOf_gihyeok
    simp [h, h622, hncma]

/-- C6 witness: `tie_break_specific_token` at the concrete input
`"712_Al_free_1st_43V"`. -/
theorem tie_break_specific_token_witness :
    sampleOf "712_Al_free_1st_43V" = .ok "BM_NCM712" ∧
    sampleOf "712_Al_free_1st_43V" ≠ .ok "BM_NCM712-Al" :=
  tie_break_specific_token.1 "712_Al_free_1st_43V"
    (by decide) (by decide) (by decide)

/-- C7 counterexample: `"NCMA_1st_2nd_43V"` contains the marker `"2nd"`, yet
the cycle resolves to 1, not 2, because `"1st"` is tested first. -/
theorem cycle_marker_counterexample :
    strContains "NCMA_1st_2nd_43V" "2nd" = true ∧
    parse_filename "NCMA_1st_2nd_43V" =
      .ok ("BM_NCMA", some (chargeToDict (1, mkRat 43 10, "C"))) ∧
    parse_filename "NCMA_1st_2nd_43V" ≠
      .ok ("BM_NCMA", some (chargeToDict (2, mkRat 43 10, "C"))) := by decide

/-- C7 (amended): in every charge-resolving variant the ordinal markers are
tested in fixed order, first match wins: `"1st"` resolves cycle 1, `"2nd"`
resolves cycle 2 when `"1st"` is absent, and `"10th"` resolves cycle 10 when
both earlier markers are absent — in the shared cycle-resolution logic (used
by `parse_filename` and both per-column variants) and equally in the nslsii
variant; with none of the three markers, `parse_filename` raises the
classification `KeyError`, while the nslsii variant defaults the cycle to 1
instead. -/
theorem cycle_markers :
    (∀ name, strContains name "1st" = true → cycleOf name = .ok 1) ∧
    (∀ name, strContains name "1st" = false → strContains name "2nd" = true →
      cycleOf name = .ok 2) ∧
    (∀ name, strContains name "1st" = false → strContains name "2nd" = false →
      strContains name "10th" = true → cycleOf name = .ok 10) ∧
    (∀ name s, sampleOf name = .ok s → strContains name "Pristine" = false →
      strContains name "1st" = false → strContains name "2nd" = false →
      strContains name "10th" = false →
      parse_filename name =
        .raise (.keyError ("unable to parse cycle from " ++ name))) ∧
    (∀ name, strContains name "1st" = false → strContains name "2nd" = false →
      strContains name "10th" = false → cycleOf_nslsii name = 1) ∧
    (∀ name, strContains name "1st" = true → cycleOf_nslsii name = 1) ∧
    (∀ name, strContains name "1st" = false → strContains name "2nd" = true →
      cycleOf_nslsii name = 2) ∧
    (∀ name, strContains name "1st" = false → strContains name "2nd" = false →
      strContains name "10th" = true → cycleOf_nslsii name = 10) := by
  refine ⟨?_, ?_, ?_, ?_, ?_, ?_, ?_, ?_⟩
  · intro name h1
    unfold cycleOf; simp [h1]
  · intro name h1 h2
    unfold cycleOf; simp [h1, h2]
  · intro name h1 h2 h3
    unfold cycleOf; simp [h1, h2, h3]
  · intro name s hs hp h1 h2 h3
    have hne := sampleOf_ne_Ni_metal name s hs
    have hcy : cycleOf name =
        .raise (.keyError ("unable to parse cycle from " ++ name)) := by
      unfold cycleOf; simp [h1, h2, h3]
    unfold parse_filename
    rw [hs]
    simp [hne, hp, hcy]
  · intro name h1 h2 h3
    unfold cycleOf_nslsii; simp [h1, h2, h3]
  · intro name h1
    unfold cycleOf_nslsii; simp [h1]
  · intro name h1 h2
    unfold cycleOf_nslsii; simp [h1, h2]
  · intro name h1 h2 h3
    unfold cycleOf_nslsii; simp [h1, h2, h3]

/-- C7 witness: the no-marker clause of `cycle_markers` at the concrete
input `"NCMA_scan.txt"`, and its nslsii `"2nd"` clause at `"NMCA_2nd_43C"`. -/
theorem cycle_markers_witness :
    (parse_filename "NCMA_scan.txt" =
      .raise (.keyError ("unable to parse cycle from " ++ "NCMA_scan.txt"))) ∧
    cycleOf_nslsii "NMCA_2nd_43C" = 2 :=
  ⟨cycle_markers.2.2.2.1 "NCMA_scan.txt" "BM_NCMA"
    (by decide) (by decide) (by decide) (by decide) (by decide),
   cycle_markers.2.2.2.2.2.2.1 "NMCA_2nd_43C" (by decide) (by decide)⟩

/-- C10 counterexample: `"622_NMCA_pristine"` contains `"NMCA"` but resolves
to `"BM_NCM622"`, not `"BM_NCMA"`, because the `"622"` test runs first. -/
theorem nslsii_misspelling_counterexample :
    strContains "622_NMCA_pristine" "NMCA" = true ∧
    parse_filename_nslsii "622_NMCA_pristine" =
      .ok ("BM_NCM622", some (chargeToDict (0, 0, "DC"))) ∧
    parse_filename_nslsii "622_NMCA_pristine" ≠
      .ok ("BM_NCMA", some (chargeToDict (0, 0, "DC"))) := by decide

/-- C10 (amended): `parse_filename_nslsii` accepts the misspelled tokens:
an input containing `"NMCA"` without the earlier-priority token `"622"`
resolves to `"BM_NCMA"`, and an input containing `"721"` without any
earlier-priority token (`"622"`, `"NCMA"`, `"NMCA"`) resolves to
`"BM_NCM712-Al"`, exactly as the correctly spelled tokens `"NCMA"` and
`"712"` do under the same exclusions. -/
theorem nslsii_misspelled_tokens :
    (∀ name, strContains name "NMCA" = true → strContains name "622" = false →
      sampleOf_nslsii name = .ok "BM_NCMA") ∧
    (∀ name, strContains name "NCMA" = true → strContains name "622" = false →
      sampleOf_nslsii name = .ok "BM_NCMA") ∧
    (∀ name, strContains name "721" = true → strContains name "622" = false →
      strContains name "NCMA" = false → strContains name "NMCA" = false →
      sampleOf_nslsii name = .ok "BM_NCM712-Al") ∧
    (∀ name, strContains name "712" = true → strContains name "622" = false →
      strContains name "NCMA" = false → strContains name "NMCA" = false →
      sampleOf_nslsii name = .ok "BM_NCM712-Al") := by
  refine ⟨?_, ?_, ?_, ?_⟩
  · intro name h h622
    unfold sampleOf_nslsii; simp [h, h622]
  · intro name h h622
    unfold sampleOf_nslsii; simp [h, h622]
  · intro name h h622 hncma hnmca
    unfold sampleOf_nslsii; simp [h, h622, hncma, hnmca]
  · intro name h h622 hncma hnmca
    unfold sampleOf_nslsii; simp [h, h622, hncma, hnmca]

/-- C10 witness: `nslsii_misspelled_tokens` at the concrete misspelled
inputs `"NMCA_pristine"` and `"721_scan"`. -/
theorem nslsii_misspelled_tokens_witness :
    sampleOf_nslsii "NMCA_pristine" = .ok "BM_NCMA" ∧
    sampleOf_nslsii "721_scan" = .ok "BM_NCM712-Al" :=
  ⟨nslsii_misspelled_tokens.1 "NMCA_pristine" (by decide) (by decide),
   nslsii_misspelled_tokens.2.2.1 "721_scan" (by decide) (by decide)
     (by decide) (by decide)⟩
